import Mathlib

/-!
Shallow embedding of `src/main.py`, a Streamlit dashboard over a sales table.
The pipeline is: load the table (upload or default path), coerce the
`Order Date` column and drop unparseable rows, filter by a date range and by
optional Region/State/City selections, then compute group-by-sum aggregations
(category, region, monthly time series) that are rendered and offered as CSV
downloads.
-/

namespace Superstore

/-- A calendar date, the value of a parsed `Order Date` cell
(`pd.to_datetime` result). -/
structure OrderDate where
  year : Nat
  month : Nat
  day : Nat
deriving DecidableEq, Repr

/-- Chronological comparison of dates (pandas `Timestamp` ordering),
lexicographic on year, month, day. -/
def OrderDate.leb (a b : OrderDate) : Bool :=
  decide (a.year < b.year ∨ (a.year = b.year ∧
    (a.month < b.month ∨ (a.month = b.month ∧ a.day ≤ b.day))))

/-- One row of the sales table, after the `pd.to_datetime(..., errors='coerce')`
step has been applied to the `Order Date` column: `none` stands for `NaT`
(an unparseable date).  The `Category` cell may be missing (`none` stands for
`NaN`), which matters for the group-by aggregation; the remaining categorical
columns are carried as plain strings, and the numeric columns as rationals. -/
structure Row where
  orderDate : Option OrderDate
  region : String
  state : String
  city : String
  category : Option String
  subCategory : String
  segment : String
  sales : Rat
  profit : Rat
  quantity : Rat
deriving DecidableEq, Repr

/-- main.py line 48: `df = df.dropna(subset=["Order Date"])` — drop the rows
whose `Order Date` could not be parsed at line 45. -/
def coercedRows (raw : List Row) : List Row :=
  raw.filter (fun r => r.orderDate.isSome)

/-- The predicate of main.py line 61:
`(df["Order Date"] >= date1) & (df["Order Date"] <= date2)`.
A `NaT` date compares false on both sides, as in pandas. -/
def dateInRange (d1 d2 : OrderDate) (r : Row) : Bool :=
  match r.orderDate with
  | some d => d1.leb d && d.leb d2
  | none => false

/-- main.py line 61: keep the rows whose `Order Date` lies in the chosen
range, inclusive on both ends. -/
def dateFilteredDf (d1 d2 : OrderDate) (rows : List Row) : List Row :=
  rows.filter (dateInRange d1 d2)

/-- main.py lines 72–77: `if region: filtered_df = filtered_df[filtered_df["Region"].isin(region)]`
and likewise for State and City.  An empty selection is falsy in Python, so
the filter is skipped; a non-empty selection keeps the rows whose value in
the column is a member of the selection. -/
def applyIsin (sel : List String) (col : Row → String) (rows : List Row) : List Row :=
  if sel.isEmpty then rows else rows.filter (fun r => sel.contains (col r))

/-- main.py lines 61–77: the full filtering stage, from the coerced table to
`filtered_df` — date range first, then Region, State, City selections. -/
def filtered_df (d1 d2 : OrderDate) (regionSel stateSel citySel : List String)
    (rows : List Row) : List Row :=
  applyIsin citySel Row.city
    (applyIsin stateSel Row.state
      (applyIsin regionSel Row.region
        (dateFilteredDf d1 d2 rows)))

/-- A pandas `groupby(key)["Sales"].sum()`: one output row per distinct
non-null key value, paired with the sum of `Sales` over the rows having that
key.  Rows whose key is `none` (`NaN`) are dropped by pandas and so belong to
no group.  pandas sorts the group keys; the key order is immaterial to the
stated properties, so the distinct keys are listed here in `dedup` order. -/
def groupSales (key : Row → Option String) (rows : List Row) : List (String × Rat) :=
  ((rows.filterMap key).dedup).map
    (fun k => (k, ((rows.filter (fun r => key r == some k)).map Row.sales).sum))

/-- The grouping key of main.py line 82: the `Category` column. -/
def categoryKey (r : Row) : Option String := r.category

/-- The grouping key of main.py line 93: the `Region` column. -/
def regionKey (r : Row) : Option String := some r.region

/-- main.py line 82: `category_df = filtered_df.groupby("Category", as_index=False)["Sales"].sum()`. -/
def category_df (rows : List Row) : List (String × Rat) :=
  groupSales categoryKey rows

/-- main.py line 93: `region_df = filtered_df.groupby("Region", as_index=False)["Sales"].sum()`. -/
def region_df (rows : List Row) : List (String × Rat) :=
  groupSales regionKey rows

/-- The abbreviated month name produced by `strftime("%b")`. -/
def monthAbbrev : Nat → String
  | 1 => "Jan"
  | 2 => "Feb"
  | 3 => "Mar"
  | 4 => "Apr"
  | 5 => "May"
  | 6 => "Jun"
  | 7 => "Jul"
  | 8 => "Aug"
  | 9 => "Sep"
  | 10 => "Oct"
  | 11 => "Nov"
  | 12 => "Dec"
  | _ => ""

/-- The grouping key of main.py lines 112 and 115: `Order Date` taken to a
monthly period and formatted `"%Y-%b"`.  A `NaT` date yields `none` and the
row falls in no group, as in pandas. -/
def monthYearKey (r : Row) : Option String :=
  r.orderDate.map (fun d => toString d.year ++ "-" ++ monthAbbrev d.month)

/-- main.py line 115: the monthly time-series table,
`filtered_df.groupby(filtered_df["month_year"].dt.strftime("%Y-%b"))["Sales"].sum().reset_index()`. -/
def linechart (rows : List Row) : List (String × Rat) :=
  groupSales monthYearKey rows

/-- The reader used to parse an uploaded file (main.py lines 30–33). -/
inductive Reader
  | csvISO8859
  | excel
deriving DecidableEq, Repr

/-- main.py line 24: the extensions the `st.file_uploader` widget accepts. -/
def uploaderAcceptedTypes : List String := ["csv", "txt", "xlsx", "xls"]

/-- main.py lines 30–33: a filename ending in `.csv` or `.txt` is read with
`pd.read_csv(fl, encoding="ISO-8859-1")`; any other upload is read with
`pd.read_excel(fl)`. -/
def chooseReader (filename : String) : Reader :=
  if filename.endsWith ".csv" || filename.endsWith ".txt" then Reader.csvISO8859
  else Reader.excel

/-- Outcome of the guarded start of the script: the two `st.stop()` sites
(main.py lines 16 and 41) or the table the rest of the script proceeds with. -/
inductive LoadOutcome
  | haltPlotlyMissing
  | haltNoDataset
  | proceed (rows : List Row)
deriving DecidableEq, Repr

/-- main.py lines 9–16 and 26–41: if the plotly import fails the script
errors and stops; otherwise an uploaded file is read, else the default path
is read when it exists, else the script errors and stops.  `uploaded` is the
parsed content of the uploaded file (`none` when no file is uploaded) and
`defaultFile` the parsed content of the default dataset (`none` when the
path does not exist). -/
def loadStage (plotlyOk : Bool) (uploaded : Option (List Row))
    (defaultFile : Option (List Row)) : LoadOutcome :=
  if plotlyOk = false then LoadOutcome.haltPlotlyMissing
  else
    match uploaded with
    | some rows => LoadOutcome.proceed rows
    | none =>
      match defaultFile with
      | some rows => LoadOutcome.proceed rows
      | none => LoadOutcome.haltNoDataset

/-- The CSV cell text of a numeric value (pandas `to_csv` rendering of the
`Sales` sum; the exact digit format is a library detail). -/
def ratToCsvCell (q : Rat) : String := toString q

/-- pandas `DataFrame.to_csv(index=index)` for a two-column aggregate table:
a header line, then one line per row; when `index` is true the positional
index is prepended as an extra unnamed first column. -/
def aggToCsv (index : Bool) (keyHeader valueHeader : String)
    (t : List (String × Rat)) : String :=
  (if index then "," else "") ++ keyHeader ++ "," ++ valueHeader ++ "\n" ++
    String.join (t.enum.map (fun p =>
      (if index then toString p.1 ++ "," else "") ++
        p.2.1 ++ "," ++ ratToCsvCell p.2.2 ++ "\n"))

/-- `.encode('utf-8')`: the UTF-8 bytes of a string. -/
def utf8Bytes (s : String) : List UInt8 := s.toUTF8.toList

/-- main.py lines 102–103: the payload of the Download Category Data button,
`category_df.to_csv(index=False).encode('utf-8')`. -/
def downloadCategoryPayload (d1 d2 : OrderDate) (rs ss cs : List String)
    (rows : List Row) : List UInt8 :=
  utf8Bytes (aggToCsv false "Category" "Sales" (category_df (filtered_df d1 d2 rs ss cs rows)))

/-- main.py lines 108–109: the payload of the Download Region Data button,
`region_df.to_csv(index=False).encode('utf-8')`. -/
def downloadRegionPayload (d1 d2 : OrderDate) (rs ss cs : List String)
    (rows : List Row) : List UInt8 :=
  utf8Bytes (aggToCsv false "Region" "Sales" (region_df (filtered_df d1 d2 rs ss cs rows)))

/-- main.py lines 121–122: the payload of the Download Time Series Data
button, `linechart.to_csv(index=False).encode('utf-8')`. -/
def downloadTimeSeriesPayload (d1 d2 : OrderDate) (rs ss cs : List String)
    (rows : List Row) : List UInt8 :=
  utf8Bytes (aggToCsv false "month_year" "Sales" (linechart (filtered_df d1 d2 rs ss cs rows)))

/-- main.py lines 160–162: the table exported by the Download Original Data
button.  The variable `df` at that point has passed the date coercion
(line 45), the drop of unparseable rows (line 48) and the date-range filter
(line 61), but none of the Region/State/City filters, which are applied to
the separate variable `filtered_df`. -/
def originalDownloadTable (raw : List Row) (d1 d2 : OrderDate) : List Row :=
  dateFilteredDf d1 d2 (coercedRows raw)

/-- The download contract stated by the spec: the UTF-8 encoding of the
table serialized as CSV without its index column. -/
def specCsvBytesNoIndex (keyHeader valueHeader : String)
    (t : List (String × Rat)) : List UInt8 :=
  utf8Bytes (aggToCsv false keyHeader valueHeader t)

/-- A sample parsed row (East region, January 2017) for concrete
instantiations. -/
def rowEast : Row :=
  ⟨some ⟨2017, 1, 5⟩, "East", "Ohio", "Akron", some "Furniture", "Chairs",
    "Consumer", 100, 10, 2⟩

/-- A sample parsed row (West region, March 2017). -/
def rowWest : Row :=
  ⟨some ⟨2017, 3, 20⟩, "West", "Utah", "Provo", some "Technology", "Phones",
    "Corporate", 250, 40, 3⟩

/-- A sample parsed row dated outside 2017. -/
def rowLate : Row :=
  ⟨some ⟨2018, 6, 1⟩, "South", "Texas", "Austin", some "Office Supplies",
    "Paper", "Home Office", 75, 5, 1⟩

/-- A sample row whose Order Date failed to parse (`NaT`). -/
def rowBad : Row :=
  ⟨none, "East", "Ohio", "Akron", some "Furniture", "Tables", "Consumer",
    60, 3, 1⟩

/-- Sample date-range bounds: the year 2017. -/
def sampleDate1 : OrderDate := ⟨2017, 1, 1⟩

/-- Sample date-range bounds: the year 2017. -/
def sampleDate2 : OrderDate := ⟨2017, 12, 31⟩

/-- A sample loaded table. -/
def sampleRows : List Row := [rowEast, rowWest, rowLate, rowBad]

section Lemmas

/-- Membership in an `isin` filter stage: the row passed through unchanged
when the selection is empty, and otherwise survives exactly when its column
value is selected. -/
theorem mem_applyIsin (sel : List String) (col : Row → String) (rows : List Row) (r : Row) :
    r ∈ applyIsin sel col rows ↔ r ∈ rows ∧ (sel ≠ [] → col r ∈ sel) := by
  unfold applyIsin
  cases sel with
  | nil => simp
  | cons a t =>
    simp [List.mem_filter]

/-- Membership in the date-range filter. -/
theorem mem_dateFilteredDf (d1 d2 : OrderDate) (rows : List Row) (r : Row) :
    r ∈ dateFilteredDf d1 d2 rows ↔ r ∈ rows ∧ dateInRange d1 d2 r = true := by
  unfold dateFilteredDf
  exact List.mem_filter

/-- A row of the fully filtered table comes from the input table and passed
the date-range test. -/
theorem mem_filtered_df_imp (d1 d2 : OrderDate) (rs ss cs : List String)
    (rows : List Row) (r : Row) :
    r ∈ filtered_df d1 d2 rs ss cs rows →
      r ∈ rows ∧ dateInRange d1 d2 r = true := by
  intro hr
  unfold filtered_df at hr
  rw [mem_applyIsin] at hr
  rw [mem_applyIsin] at hr
  rw [mem_applyIsin] at hr
  rw [mem_dateFilteredDf] at hr
  exact hr.1.1.1

/-- The rows of a group-by-sum table: `(k, s)` appears exactly when some row
has key `k`, and then `s` is the sum of `Sales` over the rows with key `k`. -/
theorem mem_groupSales (key : Row → Option String) (rows : List Row) (k : String) (s : Rat) :
    (k, s) ∈ groupSales key rows ↔
      ((∃ r ∈ rows, key r = some k) ∧
        s = ((rows.filter (fun r => key r == some k)).map Row.sales).sum) := by
  unfold groupSales
  rw [List.mem_map]
  constructor
  · rintro ⟨k0, hk0, heq⟩
    obtain ⟨hk, hs⟩ := Prod.mk.injEq .. ▸ heq
    subst hk
    refine ⟨?_, hs.symm⟩
    have := List.mem_dedup.mp hk0
    obtain ⟨r, hr, hkey⟩ := List.mem_filterMap.mp this
    exact ⟨r, hr, hkey⟩
  · rintro ⟨⟨r, hr, hkey⟩, hs⟩
    refine ⟨k, ?_, by simp [hs]⟩
    exact List.mem_dedup.mpr (List.mem_filterMap.mpr ⟨r, hr, hkey⟩)

/-- Splitting the sum of `Sales` over a table along a Boolean predicate. -/
theorem sum_map_filter_add (p : Row → Bool) (rows : List Row) :
    ((rows.filter p).map Row.sales).sum
        + ((rows.filter (fun r => !(p r))).map Row.sales).sum
      = (rows.map Row.sales).sum := by
  induction rows with
  | nil => simp
  | cons r t ih =>
    cases hp : p r with
    | true =>
      simp [List.filter_cons, hp]
      linarith [ih]
    | false =>
      simp [List.filter_cons, hp]
      linarith [ih]

/-- Removing the rows of one group does not change the other groups:
for `j ≠ k`, filtering on key `j` ignores the rows with key `k`. -/
theorem filter_erase_other (key : Row → Option String) (k j : String) (hne : j ≠ k)
    (rows : List Row) :
    ((rows.filter (fun r => !(key r == some k))).filter (fun r => key r == some j))
      = rows.filter (fun r => key r == some j) := by
  induction rows with
  | nil => rfl
  | cons r t ih =>
    by_cases hj : key r = some j
    · have h1 : (key r == some j) = true := by simp [hj]
      have h2 : (key r == some k) = false := by simp [hj, hne]
      simp [List.filter_cons, h1, h2, ih]
    · have h1 : (key r == some j) = false := by simp [hj]
      by_cases hk : key r = some k
      · have h2 : (key r == some k) = true := by simp [hk]
        simp [List.filter_cons, h1, h2, ih]
      · have h2 : (key r == some k) = false := by simp [hk]
        simp [List.filter_cons, h1, h2, ih]

/-- A group-by-sum over a duplicate-free key list covering every row
preserves the total of `Sales`. -/
theorem groupSums_partition (key : Row → Option String) (ks : List String) :
    ∀ rows : List Row, ks.Nodup →
      (∀ r ∈ rows, ∃ k, key r = some k ∧ k ∈ ks) →
      (ks.map (fun k =>
          ((rows.filter (fun r => key r == some k)).map Row.sales).sum)).sum
        = (rows.map Row.sales).sum := by
  induction ks with
  | nil =>
    intro rows _ hcov
    have hrows : rows = [] := by
      cases rows with
      | nil => rfl
      | cons r t =>
        obtain ⟨k, _, hk⟩ := hcov r (List.mem_cons_self r t)
        exact absurd hk (List.not_mem_nil k)
    subst hrows
    simp
  | cons k ks ih =>
    intro rows hnd hcov
    have hk_not : k ∉ ks := (List.nodup_cons.mp hnd).1
    have hnd' : ks.Nodup := (List.nodup_cons.mp hnd).2
    rw [List.map_cons, List.sum_cons]
    have hmap : ks.map (fun j =>
          ((rows.filter (fun r => key r == some j)).map Row.sales).sum)
        = ks.map (fun j =>
          (((rows.filter (fun r => !(key r == some k))).filter
              (fun r => key r == some j)).map Row.sales).sum) := by
      apply List.map_congr_left
      intro j hj
      rw [filter_erase_other key k j (fun hjk => hk_not (hjk ▸ hj))]
    rw [hmap]
    have hcov' : ∀ r ∈ rows.filter (fun r => !(key r == some k)),
        ∃ j, key r = some j ∧ j ∈ ks := by
      intro r hr
      have hr' := List.mem_filter.mp hr
      obtain ⟨j, hj, hjmem⟩ := hcov r hr'.1
      cases List.mem_cons.mp hjmem with
      | inl hjk =>
        exfalso
        have hb := hr'.2
        rw [hj, hjk] at hb
        simp at hb
      | inr hjs => exact ⟨j, hj, hjs⟩
    rw [ih (rows.filter (fun r => !(key r == some k))) hnd' hcov']
    exact sum_map_filter_add (fun r => key r == some k) rows

/-- When every row has a non-null key, the column of group sums totals to
the `Sales` total of the table. -/
theorem groupSales_total (key : Row → Option String) (rows : List Row)
    (h : ∀ r ∈ rows, (key r).isSome = true) :
    ((groupSales key rows).map Prod.snd).sum = (rows.map Row.sales).sum := by
  unfold groupSales
  rw [List.map_map]
  apply groupSums_partition key ((rows.filterMap key).dedup) rows (List.nodup_dedup _)
  intro r hr
  obtain ⟨k, hk⟩ := Option.isSome_iff_exists.mp (h r hr)
  exact ⟨k, hk, List.mem_dedup.mpr (List.mem_filterMap.mpr ⟨r, hr, hk⟩)⟩

end Lemmas

/-- C1: a row of the loaded table survives the filtering stage (main.py
lines 61–77) if and only if its Order Date lies between the chosen start and
end dates, inclusive on both ends, and for each of Region, State and City
with a non-empty user selection, the row's value in that column is a member
of the selection. -/
theorem claim_C1_filtering_stage (d1 d2 : OrderDate) (rs ss cs : List String)
    (rows : List Row) (r : Row) :
    r ∈ filtered_df d1 d2 rs ss cs rows ↔
      (r ∈ rows ∧
        (∃ d, r.orderDate = some d ∧ d1.leb d = true ∧ d.leb d2 = true) ∧
        (rs ≠ [] → r.region ∈ rs) ∧
        (ss ≠ [] → r.state ∈ ss) ∧
        (cs ≠ [] → r.city ∈ cs)) := by
  unfold filtered_df
  rw [mem_applyIsin, mem_applyIsin, mem_applyIsin, mem_dateFilteredDf]
  have hdate : dateInRange d1 d2 r = true ↔
      ∃ d, r.orderDate = some d ∧ d1.leb d = true ∧ d.leb d2 = true := by
    unfold dateInRange
    cases ho : r.orderDate with
    | none => simp
    | some d => simp [Bool.and_eq_true]
  rw [hdate]
  tauto

/-- C8: an empty Region/State/City selection imposes no constraint — the
`if region:` guard of main.py lines 72–77 skips the filter, so every row
passes — whereas a literal `isin` membership test against the empty
selection would keep no rows at all. -/
theorem claim_C8_empty_selection (col : Row → String) (rows : List Row) :
    applyIsin [] col rows = rows ∧
      rows.filter (fun r => (([] : List String).contains (col r))) = [] := by
  constructor
  · rfl
  · simp

/-- C2: after the coerce-and-drop step (main.py lines 45–48) every retained
row has a parsed Order Date, the invariant is preserved by the date-range
filter and by the full filtering stage, and every group of the monthly
aggregation arises from rows with a parsed date. -/
theorem claim_C2_parsed_date_invariant :
    (∀ (raw : List Row) (r : Row),
        r ∈ coercedRows raw → r.orderDate.isSome = true) ∧
    (∀ (raw : List Row) (d1 d2 : OrderDate) (r : Row),
        r ∈ dateFilteredDf d1 d2 (coercedRows raw) → r.orderDate.isSome = true) ∧
    (∀ (raw : List Row) (d1 d2 : OrderDate) (rs ss cs : List String) (r : Row),
        r ∈ filtered_df d1 d2 rs ss cs (coercedRows raw) →
          r.orderDate.isSome = true) ∧
    (∀ (rows : List Row) (k : String) (s : Rat),
        (k, s) ∈ linechart rows →
          ∃ r ∈ rows, r.orderDate.isSome = true ∧ monthYearKey r = some k) := by
  have h1 : ∀ (raw : List Row) (r : Row),
      r ∈ coercedRows raw → r.orderDate.isSome = true := by
    intro raw r hr
    exact (List.mem_filter.mp hr).2
  have h2 : ∀ (raw : List Row) (d1 d2 : OrderDate) (r : Row),
      r ∈ dateFilteredDf d1 d2 (coercedRows raw) → r.orderDate.isSome = true := by
    intro raw d1 d2 r hr
    exact h1 raw r ((mem_dateFilteredDf d1 d2 (coercedRows raw) r).mp hr).1
  refine ⟨h1, h2, ?_, ?_⟩
  · intro raw d1 d2 rs ss cs r hr
    have hmem := mem_filtered_df_imp d1 d2 rs ss cs (coercedRows raw) r hr
    exact h1 raw r hmem.1
  · intro rows k s hks
    obtain ⟨⟨r, hr, hkey⟩, _⟩ := (mem_groupSales monthYearKey rows k s).mp hks
    refine ⟨r, hr, ?_, hkey⟩
    unfold monthYearKey at hkey
    cases ho : r.orderDate with
    | none => rw [ho] at hkey; exact absurd hkey (by simp)
    | some d => rfl

/-- Witness for C2: a concrete table with one unparseable row. -/
theorem claim_C2_parsed_date_invariant_witness :
    rowEast ∈ coercedRows [rowEast, rowBad] ∧ rowEast.orderDate.isSome = true :=
  ⟨by decide,
    claim_C2_parsed_date_invariant.1 [rowEast, rowBad] rowEast (by decide)⟩

/-- C3: the category aggregation (main.py line 82) maps each distinct
Category value to the sum of Sales over exactly the filtered rows having
that Category, and the region aggregation (line 93) does likewise for
Region. -/
theorem claim_C3_groupby_aggregations (rows : List Row) (k : String) (s : Rat) :
    ((k, s) ∈ category_df rows ↔
        ((∃ r ∈ rows, r.category = some k) ∧
          s = ((rows.filter (fun r => r.category == some k)).map Row.sales).sum)) ∧
      ((k, s) ∈ region_df rows ↔
        ((∃ r ∈ rows, r.region = k) ∧
          s = ((rows.filter (fun r => r.region == k)).map Row.sales).sum)) := by
  constructor
  · exact mem_groupSales categoryKey rows k s
  · have h := mem_groupSales regionKey rows k s
    simp only [regionKey, Option.some.injEq] at h
    exact h

/-- C9: when every filtered row has a non-null Category, the Sales column of
the category aggregation sums to the Sales total of the filtered table —
the group-by partitions the rows and preserves the total. -/
theorem claim_C9_groupby_total (d1 d2 : OrderDate) (rs ss cs : List String)
    (rows : List Row)
    (h : ∀ r ∈ filtered_df d1 d2 rs ss cs rows, r.category.isSome = true) :
    ((category_df (filtered_df d1 d2 rs ss cs rows)).map Prod.snd).sum
      = ((filtered_df d1 d2 rs ss cs rows).map Row.sales).sum :=
  groupSales_total categoryKey (filtered_df d1 d2 rs ss cs rows) h

/-- Witness for C9: the 2017 rows of the sample table, no categorical
selection. -/
theorem claim_C9_groupby_total_witness :
    (∀ r ∈ filtered_df sampleDate1 sampleDate2 [] [] [] sampleRows,
        r.category.isSome = true) ∧
      ((category_df (filtered_df sampleDate1 sampleDate2 [] [] [] sampleRows)).map
          Prod.snd).sum
        = ((filtered_df sampleDate1 sampleDate2 [] [] [] sampleRows).map
            Row.sales).sum :=
  ⟨by decide,
    claim_C9_groupby_total sampleDate1 sampleDate2 [] [] [] sampleRows (by decide)⟩

/-- C4: the script halts in exactly two checked cases — the plotly import
fails (main.py lines 9–16), or no file is uploaded and the default dataset
path does not exist (lines 34–41); in every other situation it proceeds
with a loaded table. -/
theorem claim_C4_halt_conditions (p : Bool) (u d : Option (List Row)) :
    ((∃ rows, loadStage p u d = LoadOutcome.proceed rows) ↔
        (p = true ∧ (u ≠ none ∨ d ≠ none))) ∧
      (loadStage p u d = LoadOutcome.haltPlotlyMissing ↔ p = false) ∧
      (loadStage p u d = LoadOutcome.haltNoDataset ↔
        (p = true ∧ u = none ∧ d = none)) := by
  cases p <;> cases u <;> cases d <;> simp [loadStage]

/-- C5: the upload widget accepts the CSV and Excel extensions
(main.py line 24), a filename ending in `.csv` or `.txt` is read with the
CSV reader in ISO-8859-1 encoding, and every other upload is read with the
Excel reader (lines 30–33). -/
theorem claim_C5_reader_choice :
    ("csv" ∈ uploaderAcceptedTypes ∧ "txt" ∈ uploaderAcceptedTypes ∧
        "xlsx" ∈ uploaderAcceptedTypes ∧ "xls" ∈ uploaderAcceptedTypes) ∧
      ∀ name : String,
        (chooseReader name = Reader.csvISO8859 ↔
          (name.endsWith ".csv" || name.endsWith ".txt") = true) ∧
        (chooseReader name = Reader.excel ↔
          (name.endsWith ".csv" || name.endsWith ".txt") = false) := by
  refine ⟨by decide, ?_⟩
  intro name
  unfold chooseReader
  cases h : name.endsWith ".csv" || name.endsWith ".txt" <;> simp [h]

/-- C6: each displayed aggregate table — category-wise sales, region-wise
sales and the monthly time series — is offered as a download whose bytes are
the UTF-8 encoding of that exact table serialized without its index column
(main.py lines 102–103, 108–109, 121–122); serializing with the index would
produce different bytes. -/
theorem claim_C6_download_bytes (d1 d2 : OrderDate) (rs ss cs : List String)
    (rows : List Row) :
    (downloadCategoryPayload d1 d2 rs ss cs rows
        = specCsvBytesNoIndex "Category" "Sales"
            (category_df (filtered_df d1 d2 rs ss cs rows))) ∧
      (downloadRegionPayload d1 d2 rs ss cs rows
        = specCsvBytesNoIndex "Region" "Sales"
            (region_df (filtered_df d1 d2 rs ss cs rows))) ∧
      (downloadTimeSeriesPayload d1 d2 rs ss cs rows
        = specCsvBytesNoIndex "month_year" "Sales"
            (linechart (filtered_df d1 d2 rs ss cs rows))) ∧
      aggToCsv false "Category" "Sales" [("Furniture", 100)]
        ≠ aggToCsv true "Category" "Sales" [("Furniture", 100)] :=
  ⟨rfl, rfl, rfl, by decide⟩

/-- C7: the pipeline is deterministic and stateless — two runs from the same
loaded table with the same date-range and Region/State/City selections
produce the same filtered table and the same aggregate tables. -/
theorem claim_C7_deterministic (rows1 rows2 : List Row) (d1 d1' d2 d2' : OrderDate)
    (rs rs' ss ss' cs cs' : List String)
    (hrows : rows1 = rows2) (hd1 : d1 = d1') (hd2 : d2 = d2')
    (hrs : rs = rs') (hss : ss = ss') (hcs : cs = cs') :
    filtered_df d1 d2 rs ss cs rows1 = filtered_df d1' d2' rs' ss' cs' rows2 ∧
      category_df (filtered_df d1 d2 rs ss cs rows1)
        = category_df (filtered_df d1' d2' rs' ss' cs' rows2) ∧
      region_df (filtered_df d1 d2 rs ss cs rows1)
        = region_df (filtered_df d1' d2' rs' ss' cs' rows2) ∧
      linechart (filtered_df d1 d2 rs ss cs rows1)
        = linechart (filtered_df d1' d2' rs' ss' cs' rows2) := by
  subst hrows hd1 hd2 hrs hss hcs
  exact ⟨rfl, rfl, rfl, rfl⟩

/-- Witness for C7: two identical runs on the sample table. -/
theorem claim_C7_deterministic_witness :
    filtered_df sampleDate1 sampleDate2 ["East"] [] [] sampleRows
        = filtered_df sampleDate1 sampleDate2 ["East"] [] [] sampleRows ∧
      category_df (filtered_df sampleDate1 sampleDate2 ["East"] [] [] sampleRows)
        = category_df (filtered_df sampleDate1 sampleDate2 ["East"] [] [] sampleRows) ∧
      region_df (filtered_df sampleDate1 sampleDate2 ["East"] [] [] sampleRows)
        = region_df (filtered_df sampleDate1 sampleDate2 ["East"] [] [] sampleRows) ∧
      linechart (filtered_df sampleDate1 sampleDate2 ["East"] [] [] sampleRows)
        = linechart (filtered_df sampleDate1 sampleDate2 ["East"] [] [] sampleRows) :=
  claim_C7_deterministic sampleRows sampleRows sampleDate1 sampleDate1
    sampleDate2 sampleDate2 ["East"] ["East"] [] [] [] []
    rfl rfl rfl rfl rfl rfl

/-- C10: the Download Original Data button (main.py lines 160–162) exports
the table after date coercion, the drop of unparseable rows and the
date-range filter — on a sample table it differs from the originally loaded
dataset — and without the Region/State/City filters, whose application
would give a different table. -/
theorem claim_C10_original_download (raw : List Row) (d1 d2 : OrderDate) (r : Row) :
    (r ∈ originalDownloadTable raw d1 d2 ↔
        (r ∈ raw ∧ dateInRange d1 d2 r = true)) ∧
      originalDownloadTable [rowEast, rowLate, rowBad] sampleDate1 sampleDate2
        ≠ [rowEast, rowLate, rowBad] ∧
      originalDownloadTable [rowEast, rowLate, rowBad] sampleDate1 sampleDate2
        ≠ filtered_df sampleDate1 sampleDate2 ["West"] [] []
            (coercedRows [rowEast, rowLate, rowBad]) := by
  refine ⟨?_, by decide, by decide⟩
  unfold originalDownloadTable
  rw [mem_dateFilteredDf]
  unfold coercedRows
  rw [List.mem_filter]
  constructor
  · rintro ⟨⟨hmem, _⟩, hdate⟩
    exact ⟨hmem, hdate⟩
  · rintro ⟨hmem, hdate⟩
    refine ⟨⟨hmem, ?_⟩, hdate⟩
    unfold dateInRange at hdate
    cases ho : r.orderDate with
    | none => rw [ho] at hdate; exact absurd hdate (by simp)
    | some d => rfl

end Superstore
